import Mathlib

/-!
Verification development for the AgentWallet daemon state engine
(`src/server.ts`, `src/config.ts`).  The definitions below are a shallow
embedding of the TypeScript source: JSON values arriving in request bodies
are modelled by `JSVal`, the JS `Map` stores by insertion-ordered
association lists, and the nondeterministic environment inputs
(`randomUUID()`, `Date.now()`, `new Date().toISOString()`) by explicit
parameters.
-/

/-- Model of a JavaScript number as it can appear in a parsed JSON body or
be produced by the CLI's `Number(value)` coercion: a finite integer value,
`NaN`, or an infinity.  (Finite non-integers are not needed by any theorem
below; restricting to integers only shrinks the domain of the model.) -/
inductive JSNum where
  | fin (i : Int)
  | nan
  | posInf
  | negInf
deriving DecidableEq

/-- Model of a JavaScript/JSON value occupying an object field.  A missing
(`undefined`) field is modelled as `none` at the `Option JSVal` level. -/
inductive JSVal where
  | vStr (s : String)
  | vNum (n : JSNum)
  | vBool (b : Bool)
  | vNull
deriving DecidableEq

/-- JavaScript truthiness of an (optional) field value: `undefined`, `null`,
`""`, `0`, `NaN` and `false` are falsy, everything else here is truthy. -/
def truthy : Option JSVal → Bool
  | none => false
  | some JSVal.vNull => false
  | some (JSVal.vBool b) => b
  | some (JSVal.vStr s) => !s.isEmpty
  | some (JSVal.vNum (JSNum.fin i)) => i != 0
  | some (JSVal.vNum JSNum.nan) => false
  | some (JSVal.vNum JSNum.posInf) => true
  | some (JSVal.vNum JSNum.negInf) => true

/-- The JavaScript `String(v)` coercion on the modelled values. -/
def jsToString : JSVal → String
  | JSVal.vStr s => s
  | JSVal.vNull => "null"
  | JSVal.vBool b => if b then ("true") else ("false")
  | JSVal.vNum (JSNum.fin i) => toString i
  | JSVal.vNum JSNum.nan => "NaN"
  | JSVal.vNum JSNum.posInf => "Infinity"
  | JSVal.vNum JSNum.negInf => "-Infinity"

/-- The `String(x ?? '')` idiom used throughout the source: `undefined` and
`null` collapse to the empty string, anything else is `String`-coerced. -/
def jsToStringD : Option JSVal → String
  | none => ""
  | some JSVal.vNull => ""
  | some v => jsToString v

/-- Whitespace as trimmed by JavaScript's `String.prototype.trim` (the model
covers the ASCII whitespace actually exercised by the claims). -/
def isJsSpace (c : Char) : Bool :=
  c == ' ' || c == '\t' || c == '\n' || c == '\r'

/-- Model of `value.trim()`. -/
def jsTrim (s : String) : String :=
  String.mk (((s.toList.dropWhile isJsSpace).reverse.dropWhile isJsSpace).reverse)

/-- Hexadecimal digit as accepted by the character class `[a-fA-F0-9]`. -/
def isHexCharB (c : Char) : Bool :=
  (('0' ≤ c) && (c ≤ '9')) || (('a' ≤ c) && (c ≤ 'f')) || (('A' ≤ c) && (c ≤ 'F'))

/-- `ADDRESS_REGEX = /^0x[a-fA-F0-9]{40}$/` applied via `isValidAddress`. -/
def isValidAddress (s : String) : Bool :=
  match s.toList with
  | '0' :: 'x' :: rest => (rest.length == 40) && rest.all isHexCharB
  | _ => false

/-- `NETWORK_REGEX = /^eip155:\d+$/i` (case-insensitive on the letters). -/
def networkRegexTest (s : String) : Bool :=
  match s.toList with
  | e :: i :: p :: a :: b :: c :: ':' :: rest =>
    ((e == 'e') || (e == 'E')) && ((i == 'i') || (i == 'I')) &&
    ((p == 'p') || (p == 'P')) && (a == '1') && (b == '5') && (c == '5') &&
    (!rest.isEmpty) && rest.all Char.isDigit
  | _ => false

/-- `HEX_DATA_REGEX = /^0x[a-fA-F0-9]*$/`. -/
def hexDataRegexTest (s : String) : Bool :=
  match s.toList with
  | '0' :: 'x' :: rest => rest.all isHexCharB
  | _ => false

/-- `uri.startsWith('wc:')`. -/
def startsWithWc (s : String) : Bool :=
  match s.toList with
  | 'w' :: 'c' :: ':' :: _ => true
  | _ => false

/-- `normalizeAddress`: trim when the field holds a string, otherwise `''`. -/
def normalizeAddress : Option JSVal → String
  | some (JSVal.vStr s) => jsTrim s
  | _ => ""

/-- Value of a hex digit. -/
def hexCharVal (c : Char) : Nat :=
  if ('0' ≤ c) && (c ≤ '9') then c.toNat - '0'.toNat
  else if ('a' ≤ c) && (c ≤ 'f') then c.toNat - 'a'.toNat + 10
  else c.toNat - 'A'.toNat + 10

/-- Value of a list of hex digits read most-significant first. -/
def hexListVal (cs : List Char) : Nat :=
  cs.foldl (fun acc c => 16 * acc + hexCharVal c) 0

/-- Value of a list of decimal digits read most-significant first. -/
def decListVal (cs : List Char) : Nat :=
  cs.foldl (fun acc c => 10 * acc + (c.toNat - '0'.toNat)) 0

/-- `BigInt('0x' + s)`: succeeds on a nonempty string of hex digits, throws
(modelled as `none`) otherwise. -/
def parseHexNat (cs : List Char) : Option Nat :=
  if cs.isEmpty then none
  else if cs.all isHexCharB then some (hexListVal cs) else none

/-- `BigInt(s)` on the strings reachable here: the empty string yields `0`,
a string of decimal digits yields its value, anything else throws. -/
def parseDecNat (cs : List Char) : Option Nat :=
  if cs.isEmpty then some 0
  else if cs.all Char.isDigit then some (decListVal cs) else none

/-- `network.split(':')[1] ?? '0'`: the segment between the first and second
colon, or the one-character string `0` when the string has no colon. -/
def jsSplitColon1 (s : String) : List Char :=
  match s.toList.dropWhile (fun c => c != ':') with
  | [] => ['0']
  | _ :: rest => rest.takeWhile (fun c => c != ':')

/-- Left-pad the decimal rendering of `n < 1000` to three digits. -/
def pad3 (n : Nat) : String :=
  if n < 10 then ("00" ++ toString n)
  else if n < 100 then ("0" ++ toString n)
  else toString n

/-- Decimal rendering of `raw / 1000` with exactly six fractional digits.
This is the exact value of `(raw / 1000).toFixed(6)` in the source for any
`raw < 500000`: the double nearest to `raw / 1000` is within `6e-14` of the
rational value, so rounding to six decimals recovers the exact expansion
`⌊raw/1000⌋ . (raw mod 1000 zero-padded) 000`. -/
def fmtFixed6 (raw : Nat) : String :=
  toString (raw / 1000) ++ "." ++ pad3 (raw % 1000) ++ "000"

/-- `computeMockBalance` from `src/server.ts`: the first eight hex characters
after `0x` plus the numeric chain id, reduced modulo 500000, divided by 1000
and formatted with six fractional digits.  A `BigInt` parse failure (an
exception in the source) is modelled as `none`. -/
def computeMockBalance (address network : String) : Option String := do
  let addrPart ← parseHexNat ((address.toList.drop 2).take 8)
  let networkPart ← parseDecNat (jsSplitColon1 network)
  some (fmtFixed6 ((addrPart + networkPart) % 500000))

/-- Result shape of `DaemonState.getBalance`; `updatedAt` stands for the
`new Date().toISOString()` timestamp, modelled as the `now` parameter. -/
structure BalanceResult where
  address : String
  network : String
  balanceEth : String
  updatedAt : Nat
deriving DecidableEq

/-- `DaemonState.getBalance`: no store access, no validation (the HTTP route
validates before calling it); the pseudo-balance is a pure function of the
address and network. -/
def getBalance (address network : String) (now : Nat) : Option BalanceResult :=
  (computeMockBalance address network).map
    (fun amount => ⟨address, network, amount, now⟩)

/-- Modelled from the spec: the balance formula as worded in the spec —
interpret the first 8 hex characters of the address after `0x` as an
unsigned integer, add the numeric chain id parsed from the network
identifier after the colon, reduce the sum modulo 500000, divide by 1000
and format with exactly six fractional digits. -/
def specPseudoBalance (address network : String) : String :=
  fmtFixed6 ((hexListVal ((address.toList.drop 2).take 8) +
    decListVal ((network.toList.dropWhile (fun ch => ch != ':')).drop 1)) % 500000)

/-- A configured network: `{name, rpcUrl}` from `src/config.ts`. -/
structure NetworkConfig where
  name : String
  rpcUrl : String
deriving DecidableEq

/-- The `DEFAULT_CONFIG.networks` list of `src/config.ts`. -/
def defaultNetworks : List NetworkConfig :=
  [⟨"eip155:1", "https://rpc.ankr.com/eth"⟩,
   ⟨"eip155:11155111", "https://rpc.ankr.com/eth_sepolia"⟩]

/-- `DaemonState.isKnownNetwork`. -/
def isKnownNetwork (networks : List NetworkConfig) (network : String) : Bool :=
  networks.any (fun net => net.name == network)

/-- Config well-formedness guaranteed by `loadConfig` in `src/config.ts`:
every accepted network name matches `NETWORK_NAME_PATTERN`, which is the
same pattern as the server's `NETWORK_REGEX`. -/
def networksWellFormed (networks : List NetworkConfig) : Prop :=
  ∀ net ∈ networks, networkRegexTest net.name = true

/-- The body of a `POST /tx/send` request (`TxSendRequest` after JSON
parsing); each field may be absent or hold an arbitrary JSON value. -/
structure TxPayload where
  network : Option JSVal
  fromF : Option JSVal
  toF : Option JSVal
  contract : Option JSVal
  nonce : Option JSVal
  value : Option JSVal
  data : Option JSVal
  gasPrice : Option JSVal
deriving DecidableEq

/-- Transaction status as stored (`'PENDING' | 'CONFIRMED'`). -/
inductive TxStatus where
  | PENDING
  | CONFIRMED
deriving DecidableEq

/-- Transaction status as reported (`'PENDING' | 'CONFIRMED' | 'UNKNOWN'`). -/
inductive TxQueryStatus where
  | PENDING
  | CONFIRMED
  | UNKNOWN
deriving DecidableEq

/-- Injection of stored statuses into reported statuses. -/
def TxStatus.toQuery : TxStatus → TxQueryStatus
  | TxStatus.PENDING => TxQueryStatus.PENDING
  | TxStatus.CONFIRMED => TxQueryStatus.CONFIRMED

/-- A stored `TxRecord`: the (already normalized) payload spread together
with the generated guid, the status and the creation timestamp. -/
structure TxRecord where
  payload : TxPayload
  guid : String
  status : TxStatus
  createdAt : Nat
deriving DecidableEq

/-- Response of `GET /tx/status` (`TxStatusResponse`); `updatedAt` models
the ISO timestamp of the call. -/
structure TxStatusResponse where
  guid : String
  status : TxQueryStatus
  updatedAt : Nat
deriving DecidableEq

/-- Session status (`'CONNECTED' | 'DISCONNECTED'`). -/
inductive SessionStatus where
  | CONNECTED
  | DISCONNECTED
deriving DecidableEq

/-- A stored `WalletConnectSession`. -/
structure WalletConnectSession where
  id : String
  address : String
  network : String
  uri : String
  status : SessionStatus
  connectedAt : String
deriving DecidableEq

/-- Body of `POST /wc/connect`. -/
structure ConnectPayload where
  network : Option JSVal
  address : Option JSVal
  uri : Option JSVal
deriving DecidableEq

/-- Body of `POST /wc/switch`. -/
structure SwitchPayload where
  session : Option JSVal
  address : Option JSVal
  network : Option JSVal
deriving DecidableEq

/-- Body of `POST /wc/disconnect`. -/
structure DisconnectPayload where
  session : Option JSVal
deriving DecidableEq

/-- Lookup in a JS `Map` modelled as an insertion-ordered association list. -/
def mapGet (m : List (String × α)) (k : String) : Option α :=
  (m.find? (fun p => p.1 == k)).map (fun p => p.2)

/-- Key-membership test of the modelled `Map`. -/
def mapHas (m : List (String × α)) (k : String) : Bool :=
  m.any (fun p => p.1 == k)

/-- `Map.set`: replace in place when the key is present (JS `Map.set` keeps
the original insertion position), append otherwise. -/
def mapSet (m : List (String × α)) (k : String) (v : α) : List (String × α) :=
  if mapHas m k then m.map (fun p => if p.1 == k then (k, v) else p)
  else m ++ [(k, v)]

/-- The mutable part of `DaemonState`: the fixed network list plus the two
in-memory stores. -/
structure DaemonState where
  networks : List NetworkConfig
  txStore : List (String × TxRecord)
  sessions : List (String × WalletConnectSession)
deriving DecidableEq

/-- `CONFIRM_DELAY_MS`. -/
def CONFIRM_DELAY_MS : Nat := 5000

/-- String-typedness of a field value (`typeof v === 'string'`). -/
def isStringVal : Option JSVal → Bool
  | some (JSVal.vStr _) => true
  | _ => false

/-- The `typeof nonce === 'number' && Number.isFinite(nonce) && nonce >= 0`
test of the source. -/
def isNonNegFiniteNum : Option JSVal → Bool
  | some (JSVal.vNum (JSNum.fin i)) => decide (0 ≤ i)
  | _ => false

/-- `validateTransactionPayload` from `src/server.ts`: the sequence of
checks, in source order, followed by the in-place payload normalization the
source performs on success (the returned payload is the mutated one).
The source's `const to = payload.to ? normalizeAddress(payload.to) :
undefined; if (to && ...)` is inlined: `to` is truthy exactly when the raw
field is truthy and its normalization is nonempty. -/
def validateTransactionPayload (payload : TxPayload)
    (networks : List NetworkConfig) : Except String TxPayload :=
  if !(networkRegexTest (jsTrim (jsToStringD payload.network)) &&
       isKnownNetwork networks (jsTrim (jsToStringD payload.network))) then
    Except.error "network must be provided using eip155:<id> format."
  else if !(isValidAddress (normalizeAddress payload.fromF)) then
    Except.error "from must be a valid hex address."
  else if truthy payload.toF && !(normalizeAddress payload.toF).isEmpty &&
          !(isValidAddress (normalizeAddress payload.toF)) then
    Except.error "to must be a valid hex address."
  else if truthy payload.contract && !(normalizeAddress payload.contract).isEmpty &&
          !(isValidAddress (normalizeAddress payload.contract)) then
    Except.error "contract must be a valid hex address."
  else if payload.nonce.isSome && !(isNonNegFiniteNum payload.nonce) then
    Except.error "nonce must be a non-negative number when provided."
  else if payload.value.isSome && !(isStringVal payload.value) then
    Except.error "value must be a string representing ETH."
  else if truthy payload.data && !(hexDataRegexTest (jsToStringD payload.data)) then
    Except.error "data must be a hex string."
  else if truthy payload.gasPrice && !(isStringVal payload.gasPrice) then
    Except.error "gas-price must be a string representing wei."
  else
    Except.ok { payload with
      network := some (JSVal.vStr (jsTrim (jsToStringD payload.network)))
      fromF := some (JSVal.vStr (normalizeAddress payload.fromF))
      toF := if truthy payload.toF && !(normalizeAddress payload.toF).isEmpty then
               some (JSVal.vStr (normalizeAddress payload.toF))
             else payload.toF
      contract := if truthy payload.contract && !(normalizeAddress payload.contract).isEmpty then
                    some (JSVal.vStr (normalizeAddress payload.contract))
                  else payload.contract }

/-- `DaemonState.createTransaction`; `uuid` models the `randomUUID()` result
and `now` the `Date.now()` timestamp. -/
def createTransaction (payload : TxPayload) (uuid : String) (now : Nat)
    (st : DaemonState) : Except String TxRecord × DaemonState :=
  match validateTransactionPayload payload st.networks with
  | Except.error e => (Except.error e, st)
  | Except.ok p =>
    (Except.ok ⟨p, uuid, TxStatus.PENDING, now⟩,
     { st with txStore := (mapSet st.txStore uuid ⟨p, uuid, TxStatus.PENDING, now⟩) })

/-- `DaemonState.getTransactionStatus`: total (never throws); performs the
lazy PENDING → CONFIRMED transition when the elapsed time exceeds
`CONFIRM_DELAY_MS`. -/
def getTransactionStatus (guid : String) (now : Nat) (st : DaemonState) :
    TxStatusResponse × DaemonState :=
  match mapGet st.txStore guid with
  | none => (⟨guid, TxQueryStatus.UNKNOWN, now⟩, st)
  | some record =>
    if record.status = TxStatus.PENDING ∧ record.createdAt + CONFIRM_DELAY_MS < now then
      (⟨guid, TxQueryStatus.CONFIRMED, now⟩,
       { st with txStore := (mapSet st.txStore guid { record with status := TxStatus.CONFIRMED }) })
    else
      (⟨guid, record.status.toQuery, now⟩, st)

/-- `DaemonState.connectSession`; `uuid` models `randomUUID()` and `nowIso`
the `new Date().toISOString()` timestamp.  The source's local bindings
`address`/`network`/`uri` are inlined. -/
def connectSession (data : ConnectPayload) (uuid : String) (nowIso : String)
    (st : DaemonState) : Except String WalletConnectSession × DaemonState :=
  if !(isValidAddress (normalizeAddress data.address) &&
       networkRegexTest (jsTrim (jsToStringD data.network)) &&
       startsWithWc (jsTrim (jsToStringD data.uri))) then
    (Except.error "network, address, and uri must be provided for WalletConnect.", st)
  else if !(isKnownNetwork st.networks (jsTrim (jsToStringD data.network))) then
    (Except.error ("Unknown network " ++ jsTrim (jsToStringD data.network) ++ "."), st)
  else
    (Except.ok ⟨uuid, normalizeAddress data.address, jsTrim (jsToStringD data.network),
       jsTrim (jsToStringD data.uri), SessionStatus.CONNECTED, nowIso⟩,
     { st with sessions := (mapSet st.sessions uuid
         ⟨uuid, normalizeAddress data.address, jsTrim (jsToStringD data.network),
          jsTrim (jsToStringD data.uri), SessionStatus.CONNECTED, nowIso⟩) })

/-- `DaemonState.switchSession`.  The source's local bindings `id`,
`nextAddress`, `nextNetwork` and `updated` are inlined; in the two guarded
validity checks `nextAddress`/`nextNetwork` are already known to be the
freshly supplied values because the guard requires the field truthy. -/
def switchSession (data : SwitchPayload) (st : DaemonState) :
    Except String WalletConnectSession × DaemonState :=
  if (jsTrim (jsToStringD data.session)).isEmpty then
    (Except.error "session must reference an existing session id.", st)
  else
    match mapGet st.sessions (jsTrim (jsToStringD data.session)) with
    | none => (Except.error "session must reference an existing session id.", st)
    | some existing =>
      if truthy data.address && !(isValidAddress (normalizeAddress data.address)) then
        (Except.error "address must be a valid hex string.", st)
      else if truthy data.network &&
              !(isKnownNetwork st.networks (jsTrim (jsToStringD data.network))) then
        (Except.error ("Unknown network " ++ jsTrim (jsToStringD data.network) ++ "."), st)
      else
        (Except.ok { existing with
            address := if truthy data.address then normalizeAddress data.address
                       else existing.address
            network := if truthy data.network then jsTrim (jsToStringD data.network)
                       else existing.network },
         { st with sessions := (mapSet st.sessions (jsTrim (jsToStringD data.session))
             { existing with
               address := if truthy data.address then normalizeAddress data.address
                          else existing.address
               network := if truthy data.network then jsTrim (jsToStringD data.network)
                          else existing.network }) })

/-- `DaemonState.disconnectSession`. -/
def disconnectSession (data : DisconnectPayload) (st : DaemonState) :
    Except String WalletConnectSession × DaemonState :=
  if (jsTrim (jsToStringD data.session)).isEmpty then
    (Except.error "session must reference an existing session id.", st)
  else
    match mapGet st.sessions (jsTrim (jsToStringD data.session)) with
    | none => (Except.error "session must reference an existing session id.", st)
    | some existing =>
      (Except.ok { existing with status := SessionStatus.DISCONNECTED },
       { st with sessions := (mapSet st.sessions (jsTrim (jsToStringD data.session))
           { existing with status := SessionStatus.DISCONNECTED }) })

/-- Success test for `Except` results (the operation did not throw). -/
def isOkE : Except String α → Bool
  | Except.ok _ => true
  | Except.error _ => false

/-- Modelled from the claim wording (amended): the acceptance predicate of
`CreateTransaction` — the trimmed network string matches the `eip155:<id>`
pattern and is a loaded network; the normalized `from` is a valid address;
`to` and `contract`, when truthy, normalize to the empty string or a valid
address; `nonce`, when present, is a non-negative finite number; `value`,
when present, is a string; `data`, when truthy, coerces to a `0x`-hex
string; `gasPrice`, when truthy, is a string. -/
def txPayloadAccepted (p : TxPayload) (networks : List NetworkConfig) : Bool :=
  (networkRegexTest (jsTrim (jsToStringD p.network)) &&
   isKnownNetwork networks (jsTrim (jsToStringD p.network))) &&
  isValidAddress (normalizeAddress p.fromF) &&
  (!(truthy p.toF) || (normalizeAddress p.toF).isEmpty ||
   isValidAddress (normalizeAddress p.toF)) &&
  (!(truthy p.contract) || (normalizeAddress p.contract).isEmpty ||
   isValidAddress (normalizeAddress p.contract)) &&
  (!(p.nonce.isSome) || isNonNegFiniteNum p.nonce) &&
  (!(p.value.isSome) || isStringVal p.value) &&
  (!(truthy p.data) || hexDataRegexTest (jsToStringD p.data)) &&
  (!(truthy p.gasPrice) || isStringVal p.gasPrice)

/-- Preservation of CONFIRMED records between two transaction stores: any
guid reading as a CONFIRMED record before still reads as a CONFIRMED record
after. -/
def txConfirmedPreserved (s s' : List (String × TxRecord)) : Prop :=
  ∀ g r, mapGet s g = some r → r.status = TxStatus.CONFIRMED →
    ∃ r', mapGet s' g = some r' ∧ r'.status = TxStatus.CONFIRMED

/-- The session-store invariant of claim C10: every entry's key equals the
session's `id`, the address passes `ADDRESS_REGEX`, the network is loaded,
and the uri starts with `wc:`. -/
def sessionStoreInv (st : DaemonState) : Prop :=
  ∀ q ∈ st.sessions, q.1 = q.2.id ∧ isValidAddress q.2.address = true ∧
    isKnownNetwork st.networks q.2.network = true ∧ startsWithWc q.2.uri = true

/-- The intermediate `raw` value of `computeMockBalance`. -/
def balanceRaw (address network : String) : Nat :=
  (hexListVal ((address.toList.drop 2).take 8) +
   decListVal (jsSplitColon1 network)) % 500000

/-- A fixed valid address (first mock account of the source). -/
def addrA : String := "0x1111111111111111111111111111111111111111"

/-- A second fixed valid address (third mock account of the source). -/
def addrB : String := "0x2222222222222222222222222222222222222222"

/-- A connected session fixture. -/
def sessA : WalletConnectSession :=
  ⟨"sid1", addrA, "eip155:1", "wc:example", SessionStatus.CONNECTED,
   "2026-01-01T00:00:00.000Z"⟩

/-- A fresh daemon state over the default config. -/
def stEmpty : DaemonState := ⟨defaultNetworks, [], []⟩

/-- A daemon state holding one connected session. -/
def stWithSession : DaemonState := ⟨defaultNetworks, [], [("sid1", sessA)]⟩

/-- A pending transaction record fixture. -/
def txPendingA : TxRecord :=
  ⟨⟨some (JSVal.vStr "eip155:1"), some (JSVal.vStr addrA),
    none, none, none, none, none, none⟩, "guid1", TxStatus.PENDING, 1000⟩

/-- A confirmed transaction record fixture. -/
def txConfirmedB : TxRecord :=
  ⟨txPendingA.payload, "guid2", TxStatus.CONFIRMED, 1000⟩

/-- A daemon state holding one pending and one confirmed transaction. -/
def stWithTx : DaemonState :=
  ⟨defaultNetworks, [("guid1", txPendingA), ("guid2", txConfirmedB)], []⟩

/-- Counterexample payload for claim C5: valid network and `from`, but a
`gasPrice` that is present and is the number `0`, not a string. -/
def payGasZero : TxPayload :=
  ⟨some (JSVal.vStr "eip155:1"), some (JSVal.vStr addrA),
   none, none, none, none, none, some (JSVal.vNum (JSNum.fin 0))⟩

/-- A payload failing validation (everything missing). -/
def payAllMissing : TxPayload := ⟨none, none, none, none, none, none, none, none⟩

/-- A fully valid send payload. -/
def payGood : TxPayload :=
  ⟨some (JSVal.vStr "eip155:1"), some (JSVal.vStr addrA),
   some (JSVal.vStr addrB), none, none, some (JSVal.vStr "0.01"), none, none⟩

/-- A connect request whose uri lacks the `wc:` prefix. -/
def connectBadUri : ConnectPayload :=
  ⟨some (JSVal.vStr "eip155:1"), some (JSVal.vStr addrA),
   some (JSVal.vStr "example")⟩

/-- A well-formed connect request. -/
def connectGood : ConnectPayload :=
  ⟨some (JSVal.vStr "eip155:1"), some (JSVal.vStr addrA),
   some (JSVal.vStr "wc:example")⟩

/-- Counterexample connect request for claim C8: the address field is a
space followed by a valid address, so the raw string does not match
`ADDRESS_REGEX`. -/
def connectPaddedAddr : ConnectPayload :=
  ⟨some (JSVal.vStr "eip155:1"), some (JSVal.vStr (" " ++ addrA)),
   some (JSVal.vStr "wc:example")⟩

/-- Counterexample switch request for claim C6: the given address is a space
followed by a valid address — not a valid address as given. -/
def switchPaddedAddr : SwitchPayload :=
  ⟨some (JSVal.vStr "sid1"), some (JSVal.vStr (" " ++ addrB)), none⟩

/-- A switch request changing only the network. -/
def switchNet : SwitchPayload :=
  ⟨some (JSVal.vStr "sid1"), none, some (JSVal.vStr "eip155:11155111")⟩

/-- A switch request naming an unknown network. -/
def switchBadNet : SwitchPayload :=
  ⟨some (JSVal.vStr "sid1"), none, some (JSVal.vStr "eip155:999")⟩

/-- Counterexample disconnect request for claim C7: the session field is the
stored id surrounded by whitespace, which is not itself a store key. -/
def discPadded : DisconnectPayload := ⟨some (JSVal.vStr " sid1 ")⟩

/-- A disconnect request naming the stored id exactly. -/
def discGood : DisconnectPayload := ⟨some (JSVal.vStr "sid1")⟩

/-- A disconnect request naming an absent id. -/
def discMissing : DisconnectPayload := ⟨some (JSVal.vStr "nosuch")⟩

/-! ### Helper lemmas about lists and the map model -/

/-- Dropping while a predicate holds walks past a prefix on which it holds
and stops at the first failing element. -/
theorem dropWhile_append_stop {p : Char → Bool} :
    ∀ (l₁ : List Char) (x : Char) (l₂ : List Char),
      (∀ c ∈ l₁, p c = true) → p x = false →
      (l₁ ++ x :: l₂).dropWhile p = x :: l₂ := by
  intro l₁ x l₂ h hx
  induction l₁ with
  | nil => simp [List.dropWhile_cons, hx]
  | cons a t ih =>
    have ha : p a = true := h a (by simp)
    simp only [List.cons_append, List.dropWhile_cons, ha, if_true]
    exact ih (fun c hc => h c (by simp [hc]))

/-- A list on which the predicate holds everywhere is its own `takeWhile`. -/
theorem takeWhile_all_eq {p : Char → Bool} :
    ∀ (l : List Char), (∀ c ∈ l, p c = true) → l.takeWhile p = l := by
  intro l h
  induction l with
  | nil => simp
  | cons a t ih =>
    have ha : p a = true := h a (by simp)
    simp only [List.takeWhile_cons, ha, if_true]
    exact congrArg (a :: ·) (ih (fun c hc => h c (by simp [hc])))

/-- A decimal digit is never a colon. -/
theorem digit_ne_colon {c : Char} (h : c.isDigit = true) : (c != ':') = true := by
  rcases Bool.eq_false_or_eq_true (c != ':') with hne | hne
  · exact hne
  · exfalso
    have hc : c = ':' := bne_eq_false_iff_eq.mp hne
    subst hc
    simp [Char.isDigit] at h

/-- Computation of `jsSplitColon1` on a well-formed `eip155:<digits>` name. -/
theorem jsSplitColon1_eip (network : String) (ds : List Char)
    (hnet : network.toList = 'e' :: 'i' :: 'p' :: '1' :: '5' :: '5' :: ':' :: ds)
    (hdig : ds.all Char.isDigit = true) :
    jsSplitColon1 network = ds := by
  unfold jsSplitColon1
  rw [hnet]
  have hpre : (['e', 'i', 'p', '1', '5', '5'] ++ ':' :: ds).dropWhile
      (fun c => c != ':') = ':' :: ds := by
    refine dropWhile_append_stop _ _ _ (fun c hc => ?_) (by decide)
    fin_cases hc <;> decide
  have : ('e' :: 'i' :: 'p' :: '1' :: '5' :: '5' :: ':' :: ds) =
      (['e', 'i', 'p', '1', '5', '5'] ++ ':' :: ds) := by simp
  rw [this, hpre]
  exact takeWhile_all_eq ds
    (fun c hc => digit_ne_colon (by
      have := List.all_eq_true.mp hdig c hc
      simpa using this))

/-- Entries of a mapped store whose key is hit: the search for the key finds
the replacement pair. -/
theorem find?_map_set {α : Type} (m : List (String × α)) (k : String) (v : α)
    (h : m.any (fun p => p.1 == k) = true) :
    (m.map (fun p => if p.1 == k then (k, v) else p)).find?
      (fun p => p.1 == k) = some (k, v) := by
  induction m with
  | nil => simp at h
  | cons a t ih =>
    rw [List.map_cons]
    by_cases ha : (a.1 == k) = true
    · rw [if_pos ha]
      exact List.find?_cons_of_pos _ (by simp)
    · have ha' : (a.1 == k) = false := Bool.eq_false_iff.mpr ha
      rw [if_neg ha, @List.find?_cons_of_neg _ (fun p => p.1 == k) a _ ha]
      rw [List.any_cons, ha', Bool.false_or] at h
      exact ih h

/-- Appending a fresh key and searching for it finds the appended pair. -/
theorem find?_append_single {α : Type} (m : List (String × α)) (k : String) (v : α)
    (h : m.any (fun p => p.1 == k) = false) :
    (m ++ [(k, v)]).find? (fun p => p.1 == k) = some (k, v) := by
  induction m with
  | nil =>
    rw [List.nil_append]
    exact List.find?_cons_of_pos _ (by simp)
  | cons a t ih =>
    rw [List.any_cons, Bool.or_eq_false_iff] at h
    rw [List.cons_append,
        @List.find?_cons_of_neg _ (fun p => p.1 == k) a _ (by simp [h.1])]
    exact ih h.2

/-- Reading back the key just written returns the written value. -/
theorem mapGet_mapSet_self {α : Type} (m : List (String × α)) (k : String) (v : α) :
    mapGet (mapSet m k v) k = some v := by
  unfold mapGet mapSet mapHas
  by_cases h : m.any (fun p => p.1 == k) = true
  · rw [if_pos h, find?_map_set m k v h]
    rfl
  · have h' : m.any (fun p => p.1 == k) = false := Bool.eq_false_iff.mpr h
    rw [if_neg h, find?_append_single m k v h']
    rfl

/-- Replacing the value under one key does not affect searches for another. -/
theorem find?_map_set_ne {α : Type} (m : List (String × α)) (k k' : String) (v : α)
    (hne : k' ≠ k) :
    (m.map (fun p => if p.1 == k then (k, v) else p)).find? (fun p => p.1 == k') =
      m.find? (fun p => p.1 == k') := by
  have hkk : (k == k') = false := beq_eq_false_iff_ne.mpr (fun hk => hne hk.symm)
  induction m with
  | nil => rfl
  | cons a t ih =>
    rw [List.map_cons]
    by_cases ha : (a.1 == k) = true
    · have hak : a.1 = k := eq_of_beq ha
      have hpa : (a.1 == k') = false := by rw [hak]; exact hkk
      rw [if_pos ha,
          @List.find?_cons_of_neg _ (fun p => p.1 == k') (k, v) _ (by simp [hkk]),
          @List.find?_cons_of_neg _ (fun p => p.1 == k') a _ (by simp [hpa]),
          ih]
    · rw [if_neg ha]
      by_cases hp : (a.1 == k') = true
      · rw [@List.find?_cons_of_pos _ (fun p => p.1 == k') a _ hp,
            @List.find?_cons_of_pos _ (fun p => p.1 == k') a _ hp]
      · rw [@List.find?_cons_of_neg _ (fun p => p.1 == k') a _ hp,
            @List.find?_cons_of_neg _ (fun p => p.1 == k') a _ hp, ih]

/-- Writing one key does not affect reads of another key. -/
theorem mapGet_mapSet_ne {α : Type} (m : List (String × α)) (k k' : String) (v : α)
    (hne : k' ≠ k) :
    mapGet (mapSet m k v) k' = mapGet m k' := by
  have hkk : ((k, v).1 == k') = false := beq_eq_false_iff_ne.mpr (fun hk => hne hk.symm)
  unfold mapGet mapSet
  by_cases h : mapHas m k = true
  · rw [if_pos h, find?_map_set_ne m k k' v hne]
  · rw [if_neg h, List.find?_append]
    have : List.find? (fun p => p.1 == k') [(k, v)] = none := by
      simp [List.find?, hkk]
    rw [this, Option.or_none]

/-- Every entry of the written store is the written pair or an old entry. -/
theorem mapSet_mem {α : Type} {m : List (String × α)} {k : String} {v : α}
    {q : String × α} (hq : q ∈ mapSet m k v) : q = (k, v) ∨ q ∈ m := by
  unfold mapSet at hq
  by_cases h : mapHas m k = true
  · rw [if_pos h] at hq
    obtain ⟨p, hp, hfp⟩ := List.mem_map.mp hq
    by_cases hpk : (p.1 == k) = true
    · left
      rw [if_pos hpk] at hfp
      exact hfp.symm
    · right
      rw [if_neg hpk] at hfp
      exact hfp ▸ hp
  · rw [if_neg h] at hq
    rcases List.mem_append.mp hq with hm | hs
    · exact Or.inr hm
    · exact Or.inl (by simpa using hs)

/-- A successful read exhibits a store entry carrying exactly that key. -/
theorem mapGet_mem {α : Type} {m : List (String × α)} {k : String} {v : α}
    (h : mapGet m k = some v) : (k, v) ∈ m := by
  unfold mapGet at h
  cases hf : m.find? (fun p => p.1 == k) with
  | none => rw [hf] at h; simp at h
  | some p =>
    rw [hf] at h
    have hv : p.2 = v := by simpa using h
    have hk : p.1 = k := eq_of_beq (@List.find?_some _ (fun q => q.1 == k) p m hf)
    have := List.mem_of_find?_eq_some hf
    cases p
    simp only at hk hv
    rw [hk, hv] at this
    exact this

/-- After a write the key is present. -/
theorem mapHas_mapSet_self {α : Type} (m : List (String × α)) (k : String) (v : α) :
    mapHas (mapSet m k v) k = true := by
  unfold mapSet mapHas
  by_cases h : m.any (fun p => p.1 == k) = true
  · rw [if_pos h]
    obtain ⟨p, hp, hpk⟩ := List.any_eq_true.mp h
    refine List.any_eq_true.mpr ⟨(k, v), List.mem_map.mpr ⟨p, hp, ?_⟩, by simp⟩
    rw [if_pos hpk]
  · rw [if_neg h, List.any_append]
    simp

/-- In a written store, every entry carrying the written key is the written
pair. -/
theorem mem_mapSet_key_eq {α : Type} {m : List (String × α)} {k : String} {v : α}
    {q : String × α} (hq : q ∈ mapSet m k v) (hk : (q.1 == k) = true) :
    q = (k, v) := by
  unfold mapSet at hq
  by_cases h : mapHas m k = true
  · rw [if_pos h] at hq
    obtain ⟨p, hp, hfp⟩ := List.mem_map.mp hq
    by_cases hpk : (p.1 == k) = true
    · rw [if_pos hpk] at hfp
      exact hfp.symm
    · rw [if_neg hpk] at hfp
      rw [← hfp] at hk
      exact absurd hk hpk
  · rw [if_neg h] at hq
    rcases List.mem_append.mp hq with hm | hs
    · exfalso
      have hall : m.any (fun p => p.1 == k) = false :=
        Bool.eq_false_iff.mpr (fun ht => h ht)
      have hany : m.any (fun p => p.1 == k) = true :=
        List.any_eq_true.mpr ⟨q, hm, hk⟩
      rw [hall] at hany
      exact Bool.false_ne_true hany
    · simpa using hs

/-- Writing a key already mapped to the same value everywhere is a no-op. -/
theorem mapSet_eq_self {α : Type} {m : List (String × α)} {k : String} {v : α}
    (h : mapHas m k = true)
    (hch : ∀ q ∈ m, (q.1 == k) = true → q = (k, v)) :
    mapSet m k v = m := by
  unfold mapSet
  rw [if_pos h]
  have hid : ∀ q ∈ m, (if q.1 == k then (k, v) else q) = id q := by
    intro q hq
    by_cases hk : (q.1 == k) = true
    · rw [if_pos hk, hch q hq hk]
      rfl
    · rw [if_neg hk]
      rfl
  rw [List.map_congr_left hid, List.map_id]

/-- Writing the same value twice is the same as writing it once. -/
theorem mapSet_idem {α : Type} (m : List (String × α)) (k : String) (v : α) :
    mapSet (mapSet m k v) k v = mapSet m k v :=
  mapSet_eq_self (mapHas_mapSet_self m k v) (fun _ hq hk => mem_mapSet_key_eq hq hk)

/-- Structure of a string passing `ADDRESS_REGEX`. -/
theorem isValidAddress_toList {s : String} (h : isValidAddress s = true) :
    ∃ rest, s.toList = '0' :: 'x' :: rest ∧ rest.length = 40 ∧
      rest.all isHexCharB = true := by
  unfold isValidAddress at h
  split at h
  · next rest heq =>
    rw [Bool.and_eq_true] at h
    exact ⟨rest, heq, by simpa using h.1, h.2⟩
  · exact absurd h (by simp)

/-- On a well-formed `eip155:<digits>` name the colon search stops at the
colon. -/
theorem dropWhile_eip (network : String) (ds : List Char)
    (hnet : network.toList = 'e' :: 'i' :: 'p' :: '1' :: '5' :: '5' :: ':' :: ds) :
    network.toList.dropWhile (fun c => c != ':') = ':' :: ds := by
  rw [hnet]
  have : ('e' :: 'i' :: 'p' :: '1' :: '5' :: '5' :: ':' :: ds) =
      (['e', 'i', 'p', '1', '5', '5'] ++ ':' :: ds) := by simp
  rw [this]
  refine dropWhile_append_stop _ _ _ (fun c hc => ?_) (by decide)
  fin_cases hc <;> decide

/-- Under the C1 hypotheses, `computeMockBalance` succeeds and produces the
formatted `balanceRaw`. -/
theorem computeMockBalance_eq (address network : String) (ds : List Char)
    (haddr : isValidAddress address = true)
    (hnet : network.toList = 'e' :: 'i' :: 'p' :: '1' :: '5' :: '5' :: ':' :: ds)
    (hdig : ds.all Char.isDigit = true) :
    computeMockBalance address network = some (fmtFixed6 (balanceRaw address network)) := by
  obtain ⟨rest, hl, hlen, hhex⟩ := isValidAddress_toList haddr
  have hslice : (address.toList.drop 2).take 8 = rest.take 8 := by rw [hl]; rfl
  have htne : (rest.take 8).isEmpty = false := by
    have hne : rest.take 8 ≠ [] := by
      intro hnil
      have := congrArg List.length hnil
      rw [List.length_take, hlen] at this
      simp at this
    exact Bool.eq_false_iff.mpr (fun ht => hne (List.isEmpty_iff.mp ht))
  have hthex : (rest.take 8).all isHexCharB = true := by
    refine List.all_eq_true.mpr (fun c hc => ?_)
    exact List.all_eq_true.mp hhex c (List.take_subset _ _ hc)
  have hhexparse : parseHexNat ((address.toList.drop 2).take 8) =
      some (hexListVal ((address.toList.drop 2).take 8)) := by
    rw [hslice]
    unfold parseHexNat
    rw [htne, hthex]
    simp
  have hsplit : jsSplitColon1 network = ds := jsSplitColon1_eip network ds hnet hdig
  have hdecparse : parseDecNat (jsSplitColon1 network) =
      some (decListVal (jsSplitColon1 network)) := by
    rw [hsplit]
    unfold parseDecNat
    by_cases hdempty : ds.isEmpty = true
    · rw [hdempty]
      have : ds = [] := List.isEmpty_iff.mp hdempty
      rw [this]
      rfl
    · rw [Bool.eq_false_iff.mpr hdempty, hdig]
      simp
  unfold computeMockBalance balanceRaw
  rw [hhexparse, hdecparse, hsplit]
  rfl

/-- C1: for every address matching the `0x`-prefixed 40-hex pattern and
every network of the form `eip155:<uint>`, `getBalance` returns a
`balanceEth` equal to the spec formula (first 8 hex chars of the address
plus the chain id, modulo 500000, divided by 1000, six fractional digits),
and repeated calls with the same pair return the same `balanceEth`. -/
theorem C1_balance_formula (address network : String) (now : Nat) (ds : List Char)
    (haddr : isValidAddress address = true)
    (hnet : network.toList = 'e' :: 'i' :: 'p' :: '1' :: '5' :: '5' :: ':' :: ds)
    (hne : ds ≠ []) (hdig : ds.all Char.isDigit = true) :
    getBalance address network now =
      some ⟨address, network, specPseudoBalance address network, now⟩ ∧
    ∀ now1 now2, (getBalance address network now1).map (fun b => b.balanceEth) =
      (getBalance address network now2).map (fun b => b.balanceEth) := by
  have hcmb := computeMockBalance_eq address network ds haddr hnet hdig
  have hspec : specPseudoBalance address network = fmtFixed6 (balanceRaw address network) := by
    unfold specPseudoBalance balanceRaw
    rw [dropWhile_eip network ds hnet, jsSplitColon1_eip network ds hnet hdig]
    simp
  constructor
  · unfold getBalance
    rw [hcmb, hspec]
    rfl
  · intro now1 now2
    unfold getBalance
    rw [hcmb]
    rfl

/-- Witness for C1 at the first mock account on mainnet. -/
theorem C1_balance_formula_witness :
    getBalance addrA ("eip155:1") 0 =
      some ⟨addrA, "eip155:1", specPseudoBalance addrA ("eip155:1"), 0⟩ :=
  (C1_balance_formula addrA ("eip155:1") 0 ['1']
    (by decide) (by decide) (by decide) (by decide)).1

/-- C9: for every valid address and `eip155:<uint>` network, the returned
`balanceEth` renders the rational `balanceRaw / 1000`, which lies in the
half-open interval `[0, 500)`. -/
theorem C9_balance_range (address network : String) (now : Nat) (ds : List Char)
    (haddr : isValidAddress address = true)
    (hnet : network.toList = 'e' :: 'i' :: 'p' :: '1' :: '5' :: '5' :: ':' :: ds)
    (hne : ds ≠ []) (hdig : ds.all Char.isDigit = true) :
    getBalance address network now =
      some ⟨address, network, fmtFixed6 (balanceRaw address network), now⟩ ∧
    0 ≤ (balanceRaw address network : ℚ) / 1000 ∧
    (balanceRaw address network : ℚ) / 1000 < 500 := by
  refine ⟨?_, ?_, ?_⟩
  · unfold getBalance
    rw [computeMockBalance_eq address network ds haddr hnet hdig]
    rfl
  · positivity
  · have hlt : balanceRaw address network < 500000 := by
      unfold balanceRaw
      exact Nat.mod_lt _ (by norm_num)
    rw [div_lt_iff₀ (by norm_num : (0:ℚ) < 1000)]
    calc ((balanceRaw address network : ℚ)) < 500000 := by exact_mod_cast hlt
    _ = 500 * 1000 := by norm_num

/-- Witness for C9 at the first mock account on mainnet. -/
theorem C9_balance_range_witness :
    getBalance addrA ("eip155:1") 0 =
      some ⟨addrA, "eip155:1", fmtFixed6 (balanceRaw addrA ("eip155:1")), 0⟩ ∧
    0 ≤ (balanceRaw addrA ("eip155:1") : ℚ) / 1000 ∧
    (balanceRaw addrA ("eip155:1") : ℚ) / 1000 < 500 :=
  C9_balance_range addrA ("eip155:1") 0 ['1']
    (by decide) (by decide) (by decide) (by decide)

/-- Counterexample to C5 as stated: a payload whose `gasPrice` is present
but is the number `0` (not a string) is nevertheless accepted, because the
source only checks `gasPrice` when it is truthy. -/
theorem C5_counterexample :
    isOkE (validateTransactionPayload payGasZero defaultNetworks) = true ∧
    payGasZero.gasPrice.isSome = true ∧
    isStringVal payGasZero.gasPrice = false := by decide

theorem or3_not_rev (t e v : Bool) : (t && !e && !v) = !(!t || e || v) := by
  cases t <;> cases e <;> cases v <;> rfl

theorem or2_not_rev (a b : Bool) : (a && !b) = !(!a || b) := by
  cases a <;> cases b <;> rfl

set_option maxHeartbeats 1000000 in
/-- C5 (amended): `CreateTransaction` accepts a payload exactly when the
trimmed network matches `eip155:<id>` and is loaded, the normalized `from`
is a valid address, truthy `to`/`contract` normalize to empty or valid
addresses, a present `nonce` is a non-negative finite number, a present
`value` is a string, truthy `data` coerces to a `0x`-hex string and a
truthy `gasPrice` is a string; otherwise it raises a validation error. -/
theorem C5_create_accepts_iff (p : TxPayload) (networks : List NetworkConfig) :
    isOkE (validateTransactionPayload p networks) = txPayloadAccepted p networks := by
  unfold validateTransactionPayload txPayloadAccepted
  generalize (truthy p.toF) = tt
  generalize ((normalizeAddress p.toF).isEmpty) = te
  generalize (isValidAddress (normalizeAddress p.toF)) = tv
  generalize (truthy p.contract) = ct
  generalize ((normalizeAddress p.contract).isEmpty) = ce
  generalize (isValidAddress (normalizeAddress p.contract)) = cv
  rw [or3_not_rev tt te tv, or3_not_rev ct ce cv,
      or2_not_rev (p.nonce.isSome) (isNonNegFiniteNum p.nonce),
      or2_not_rev (p.value.isSome) (isStringVal p.value),
      or2_not_rev (truthy p.data) (hexDataRegexTest (jsToStringD p.data)),
      or2_not_rev (truthy p.gasPrice) (isStringVal p.gasPrice)]
  generalize (networkRegexTest (jsTrim (jsToStringD p.network)) &&
    isKnownNetwork networks (jsTrim (jsToStringD p.network))) = a1
  generalize (isValidAddress (normalizeAddress p.fromF)) = a2
  generalize (!tt || te || tv) = a3
  generalize (!ct || ce || cv) = a4
  generalize (!(p.nonce.isSome) || isNonNegFiniteNum p.nonce) = a5
  generalize (!(p.value.isSome) || isStringVal p.value) = a6
  generalize (!(truthy p.data) || hexDataRegexTest (jsToStringD p.data)) = a7
  generalize (!(truthy p.gasPrice) || isStringVal p.gasPrice) = a8
  cases a1 <;> cases a2 <;> cases a3 <;> cases a4 <;> cases a5 <;>
    cases a6 <;> cases a7 <;> cases a8 <;> simp [isOkE]

/-- Every `switchSession` outcome is either a success or leaves the state
unchanged. -/
theorem switchSession_shape (d : SwitchPayload) (st : DaemonState) :
    isOkE (switchSession d st).1 = true ∨ (switchSession d st).2 = st := by
  unfold switchSession
  split
  · exact Or.inr rfl
  · split
    · exact Or.inr rfl
    · split
      · exact Or.inr rfl
      · split
        · exact Or.inr rfl
        · exact Or.inl rfl

/-- Every `disconnectSession` outcome is either a success or leaves the
state unchanged. -/
theorem disconnectSession_shape (d : DisconnectPayload) (st : DaemonState) :
    isOkE (disconnectSession d st).1 = true ∨ (disconnectSession d st).2 = st := by
  unfold disconnectSession
  split
  · exact Or.inr rfl
  · split
    · exact Or.inr rfl
    · exact Or.inl rfl

/-- C2: a rejected request leaves the stores untouched — whenever
`createTransaction`, `connectSession`, `switchSession` or
`disconnectSession` returns an error, the resulting daemon state is exactly
the input state (validation happens before any mutation). -/
theorem C2_reject_atomic :
    (∀ (p : TxPayload) (uuid : String) (now : Nat) (st : DaemonState),
      isOkE (createTransaction p uuid now st).1 = false →
      (createTransaction p uuid now st).2 = st) ∧
    (∀ (d : ConnectPayload) (uuid nowIso : String) (st : DaemonState),
      isOkE (connectSession d uuid nowIso st).1 = false →
      (connectSession d uuid nowIso st).2 = st) ∧
    (∀ (d : SwitchPayload) (st : DaemonState),
      isOkE (switchSession d st).1 = false → (switchSession d st).2 = st) ∧
    (∀ (d : DisconnectPayload) (st : DaemonState),
      isOkE (disconnectSession d st).1 = false → (disconnectSession d st).2 = st) := by
  refine ⟨?_, ?_, ?_, ?_⟩
  · intro p uuid now st h
    unfold createTransaction at h ⊢
    cases hv : validateTransactionPayload p st.networks with
    | error e => simp [hv]
    | ok q =>
      rw [hv] at h
      simp [isOkE] at h
  · intro d uuid nowIso st h
    simp only [connectSession] at h ⊢
    split_ifs at h ⊢ with h1 h2
    · rfl
    · rfl
    · simp [isOkE] at h
  · intro d st h
    rcases switchSession_shape d st with hok | hst
    · rw [h] at hok
      exact absurd hok (by simp)
    · exact hst
  · intro d st h
    rcases disconnectSession_shape d st with hok | hst
    · rw [h] at hok
      exact absurd hok (by simp)
    · exact hst

/-- Witness for C2: four concretely rejected requests leave the state
unchanged. -/
theorem C2_reject_atomic_witness :
    (createTransaction payAllMissing ("u1") 0 stEmpty).2 = stEmpty ∧
    (connectSession connectBadUri ("u2") ("t0") stEmpty).2 = stEmpty ∧
    (switchSession switchBadNet stWithSession).2 = stWithSession ∧
    (disconnectSession discMissing stWithSession).2 = stWithSession :=
  ⟨C2_reject_atomic.1 payAllMissing ("u1") 0 stEmpty (by decide),
   C2_reject_atomic.2.1 connectBadUri ("u2") ("t0") stEmpty (by decide),
   C2_reject_atomic.2.2.1 switchBadNet stWithSession (by decide),
   C2_reject_atomic.2.2.2 discMissing stWithSession (by decide)⟩

/-- An absent key reads as `none`. -/
theorem mapGet_eq_none {α : Type} {m : List (String × α)} {k : String}
    (h : mapHas m k = false) : mapGet m k = none := by
  unfold mapGet
  have hf : m.find? (fun p => p.1 == k) = none := by
    refine List.find?_eq_none.mpr (fun x hx hpx => ?_)
    have hany : m.any (fun p => p.1 == k) = true := List.any_eq_true.mpr ⟨x, hx, hpx⟩
    unfold mapHas at h
    rw [h] at hany
    exact Bool.false_ne_true hany
  rw [hf]
  rfl

/-- C4: querying a guid that is not a key of the transaction store returns a
normal result with status UNKNOWN and the guid echoed back, and leaves the
whole state (in particular the transaction store) unchanged. -/
theorem C4_unknown_guid (guid : String) (now : Nat) (st : DaemonState)
    (h : mapGet st.txStore guid = none) :
    getTransactionStatus guid now st = (⟨guid, TxQueryStatus.UNKNOWN, now⟩, st) := by
  unfold getTransactionStatus
  rw [h]

/-- Witness for C4 on the empty store. -/
theorem C4_unknown_guid_witness :
    getTransactionStatus ("g") 5 stEmpty = (⟨"g", TxQueryStatus.UNKNOWN, 5⟩, stEmpty) :=
  C4_unknown_guid ("g") 5 stEmpty (by decide)

/-- C3: transaction status is monotone — `getTransactionStatus` flips a
PENDING record to CONFIRMED exactly when the elapsed time exceeds the
5-second delay and preserves every CONFIRMED record; `createTransaction`
with a fresh guid preserves every CONFIRMED record; the session operations
do not touch the transaction store at all. -/
theorem C3_status_monotone :
    (∀ (guid : String) (now : Nat) (st : DaemonState),
      txConfirmedPreserved st.txStore (getTransactionStatus guid now st).2.txStore) ∧
    (∀ (guid : String) (now : Nat) (st : DaemonState) (r : TxRecord),
      mapGet st.txStore guid = some r → r.status = TxStatus.PENDING →
      ((r.createdAt + CONFIRM_DELAY_MS < now →
         (getTransactionStatus guid now st).1.status = TxQueryStatus.CONFIRMED ∧
         mapGet (getTransactionStatus guid now st).2.txStore guid =
           some { r with status := TxStatus.CONFIRMED }) ∧
       (¬(r.createdAt + CONFIRM_DELAY_MS < now) →
         (getTransactionStatus guid now st).1.status = TxQueryStatus.PENDING ∧
         (getTransactionStatus guid now st).2 = st))) ∧
    (∀ (p : TxPayload) (uuid : String) (now : Nat) (st : DaemonState),
      mapHas st.txStore uuid = false →
      txConfirmedPreserved st.txStore (createTransaction p uuid now st).2.txStore) ∧
    (∀ (d : ConnectPayload) (uuid nowIso : String) (st : DaemonState),
      (connectSession d uuid nowIso st).2.txStore = st.txStore) ∧
    (∀ (d : SwitchPayload) (st : DaemonState),
      (switchSession d st).2.txStore = st.txStore) ∧
    (∀ (d : DisconnectPayload) (st : DaemonState),
      (disconnectSession d st).2.txStore = st.txStore) := by
  refine ⟨?_, ?_, ?_, ?_, ?_, ?_⟩
  · intro guid now st
    unfold getTransactionStatus
    split
    · exact fun g r hg hc => ⟨r, hg, hc⟩
    · next record hm =>
      split_ifs with hcond
      · intro g r hg hc
        by_cases hgk : g = guid
        · subst hgk
          rw [hg] at hm
          have hrr : r = record := by injection hm
          rw [hrr, hcond.1] at hc
          exact absurd hc (by simp)
        · refine ⟨r, ?_, hc⟩
          rw [mapGet_mapSet_ne st.txStore guid g _ hgk]
          exact hg
      · exact fun g r hg hc => ⟨r, hg, hc⟩
  · intro guid now st r hm hpend
    unfold getTransactionStatus
    split
    · next hnone =>
      rw [hm] at hnone
      exact absurd hnone (by simp)
    · next record hrec =>
      rw [hm] at hrec
      have hrr : r = record := by injection hrec
      subst hrr
      split_ifs with hcond
      · constructor
        · intro htime
          exact ⟨rfl, mapGet_mapSet_self st.txStore guid _⟩
        · intro htime
          exact absurd hcond.2 htime
      · constructor
        · intro htime
          exact absurd ⟨hpend, htime⟩ hcond
        · intro htime
          refine ⟨?_, rfl⟩
          rw [hpend]
          rfl
  · intro p uuid now st hfresh
    unfold createTransaction
    cases hv : validateTransactionPayload p st.networks with
    | error e => exact fun g r hg hc => ⟨r, hg, hc⟩
    | ok q =>
      intro g r hg hc
      by_cases hgk : g = uuid
      · subst hgk
        rw [mapGet_eq_none hfresh] at hg
        exact absurd hg (by simp)
      · refine ⟨r, ?_, hc⟩
        rw [mapGet_mapSet_ne st.txStore uuid g _ hgk]
        exact hg
  · intro d uuid nowIso st
    unfold connectSession
    split_ifs <;> rfl
  · intro d st
    unfold switchSession
    split
    · rfl
    · split
      · rfl
      · split_ifs <;> rfl
  · intro d st
    unfold disconnectSession
    split
    · rfl
    · split
      · rfl
      · rfl

/-- Witness for C3: the pending fixture flips to CONFIRMED after the delay,
and a fresh send keeps the confirmed fixture readable. -/
theorem C3_status_monotone_witness :
    (getTransactionStatus ("guid1") 10000 stWithTx).1.status = TxQueryStatus.CONFIRMED ∧
    mapGet (getTransactionStatus ("guid1") 10000 stWithTx).2.txStore ("guid1") =
      some { txPendingA with status := TxStatus.CONFIRMED } ∧
    (mapGet (createTransaction payGood ("u9") 0 stWithTx).2.txStore ("guid2")).isSome = true := by
  obtain ⟨ha, hb⟩ := (C3_status_monotone.2.1 ("guid1") 10000 stWithTx txPendingA
    (by decide) (by decide)).1 (by decide)
  obtain ⟨r', hr', hs'⟩ := C3_status_monotone.2.2.1 payGood ("u9") 0 stWithTx
    (by decide) ("guid2") txConfirmedB (by decide) (by decide)
  refine ⟨ha, hb, ?_⟩
  rw [hr']
  rfl

/-- A loaded network name passes the network pattern. -/
theorem known_implies_regex {networks : List NetworkConfig} {n : String}
    (hwf : networksWellFormed networks) (hk : isKnownNetwork networks n = true) :
    networkRegexTest n = true := by
  obtain ⟨net, hmem, hbeq⟩ := List.any_eq_true.mp hk
  have : net.name = n := eq_of_beq hbeq
  rw [← this]
  exact hwf net hmem

/-- Counterexample to C8 as stated: a connect request whose address field is
a space followed by a valid address — hence not matching `ADDRESS_REGEX` —
is accepted, because the source trims before validating. -/
theorem C8_counterexample :
    connectPaddedAddr.address = some (JSVal.vStr (" " ++ addrA)) ∧
    isValidAddress (" " ++ addrA) = false ∧
    isOkE (connectSession connectPaddedAddr ("u1") ("t0") stEmpty).1 = true := by
  decide

/-- C8 (amended): `ConnectSession` fails (and adds nothing to the store)
exactly when the normalized address is invalid, the trimmed network is not
loaded, or the trimmed uri lacks the `wc:` prefix; on the complementary
inputs it stores and returns a new CONNECTED session carrying the
normalized address, network and uri and the generated id, which is distinct
from every previously stored id whenever the generator returns a fresh
string. -/
theorem C8_connect_amended (d : ConnectPayload) (uuid nowIso : String)
    (st : DaemonState) (hwf : networksWellFormed st.networks) :
    (¬(isValidAddress (normalizeAddress d.address) = true ∧
       isKnownNetwork st.networks (jsTrim (jsToStringD d.network)) = true ∧
       startsWithWc (jsTrim (jsToStringD d.uri)) = true) →
      isOkE (connectSession d uuid nowIso st).1 = false ∧
      (connectSession d uuid nowIso st).2 = st) ∧
    ((isValidAddress (normalizeAddress d.address) = true ∧
      isKnownNetwork st.networks (jsTrim (jsToStringD d.network)) = true ∧
      startsWithWc (jsTrim (jsToStringD d.uri)) = true) →
      (connectSession d uuid nowIso st).1 =
        Except.ok ⟨uuid, normalizeAddress d.address, jsTrim (jsToStringD d.network),
          jsTrim (jsToStringD d.uri), SessionStatus.CONNECTED, nowIso⟩ ∧
      mapGet (connectSession d uuid nowIso st).2.sessions uuid =
        some ⟨uuid, normalizeAddress d.address, jsTrim (jsToStringD d.network),
          jsTrim (jsToStringD d.uri), SessionStatus.CONNECTED, nowIso⟩ ∧
      (mapHas st.sessions uuid = false → ∀ q ∈ st.sessions, uuid ≠ q.1)) := by
  unfold connectSession
  split_ifs with h1 h2
  · refine ⟨fun _ => ⟨rfl, rfl⟩, fun hcond => ?_⟩
    exfalso
    have hb : networkRegexTest (jsTrim (jsToStringD d.network)) = true :=
      known_implies_regex hwf hcond.2.1
    rw [hcond.1, hb, hcond.2.2] at h1
    simp at h1
  · refine ⟨fun _ => ⟨rfl, rfl⟩, fun hcond => ?_⟩
    exfalso
    rw [hcond.2.1] at h2
    simp at h2
  · refine ⟨fun hnot => ?_, fun _ => ?_⟩
    · exfalso
      simp only [Bool.not_eq_true, Bool.not_eq_false', Bool.and_eq_true] at h1 h2
      exact hnot ⟨h1.1.1, h2, h1.2⟩
    · refine ⟨rfl, mapGet_mapSet_self st.sessions uuid _, ?_⟩
      intro hfresh q hq heq
      have hhas : mapHas st.sessions uuid = true :=
        List.any_eq_true.mpr ⟨q, hq, by rw [← heq]; simp⟩
      rw [hfresh] at hhas
      exact Bool.false_ne_true hhas

/-- Witness for C8: a well-formed connect request stores and returns the
new CONNECTED session. -/
theorem C8_connect_amended_witness :
    (connectSession connectGood ("u1") ("t0") stEmpty).1 =
      Except.ok ⟨"u1", normalizeAddress connectGood.address,
        jsTrim (jsToStringD connectGood.network), jsTrim (jsToStringD connectGood.uri),
        SessionStatus.CONNECTED, "t0"⟩ ∧
    mapGet (connectSession connectGood ("u1") ("t0") stEmpty).2.sessions ("u1") =
      some ⟨"u1", normalizeAddress connectGood.address,
        jsTrim (jsToStringD connectGood.network), jsTrim (jsToStringD connectGood.uri),
        SessionStatus.CONNECTED, "t0"⟩ := by
  obtain ⟨ha, hb, hc⟩ :=
    (C8_connect_amended connectGood ("u1") ("t0") stEmpty
      (by unfold networksWellFormed; decide)).2 ⟨by decide, by decide, by decide⟩
  exact ⟨ha, hb⟩

/-- Counterexample to C6 as stated: a switch request whose address field is
a space followed by a valid address — not a valid address as given — is
applied without a validation error, because the source trims first. -/
theorem C6_counterexample :
    switchPaddedAddr.address = some (JSVal.vStr (" " ++ addrB)) ∧
    isValidAddress (" " ++ addrB) = false ∧
    isOkE (switchSession switchPaddedAddr stWithSession).1 = true := by
  decide

/-- C6 (amended): on a stored session id, a truthy address must normalize to
a valid address and a truthy network must trim to a loaded network, else a
validation error leaves the state unchanged; on success the stored and
returned session takes the normalized value for each truthy field, retains
the existing value for each falsy field, and keeps `id`, `status`, `uri`
and `connectedAt` unchanged. -/
theorem C6_switch_amended (d : SwitchPayload) (st : DaemonState)
    (existing : WalletConnectSession)
    (hm : mapGet st.sessions (jsTrim (jsToStringD d.session)) = some existing) :
    (truthy d.address = true → isValidAddress (normalizeAddress d.address) = false →
      isOkE (switchSession d st).1 = false ∧ (switchSession d st).2 = st) ∧
    (truthy d.network = true →
      isKnownNetwork st.networks (jsTrim (jsToStringD d.network)) = false →
      isOkE (switchSession d st).1 = false ∧ (switchSession d st).2 = st) ∧
    (∀ s, (switchSession d st).1 = Except.ok s →
      s = { existing with
        address := if truthy d.address then normalizeAddress d.address
                   else existing.address
        network := if truthy d.network then jsTrim (jsToStringD d.network)
                   else existing.network } ∧
      mapGet (switchSession d st).2.sessions (jsTrim (jsToStringD d.session)) = some s ∧
      s.id = existing.id ∧ s.status = existing.status ∧ s.uri = existing.uri ∧
      s.connectedAt = existing.connectedAt) := by
  unfold switchSession
  split
  · refine ⟨fun _ _ => ⟨rfl, rfl⟩, fun _ _ => ⟨rfl, rfl⟩, fun s hs => ?_⟩
    exact absurd hs (by simp)
  · split
    · next hnone =>
      rw [hm] at hnone
      exact absurd hnone (by simp)
    · next existing0 hrec =>
      rw [hm] at hrec
      have hee : existing = existing0 := by injection hrec
      subst hee
      split
      · refine ⟨fun _ _ => ⟨rfl, rfl⟩, fun _ _ => ⟨rfl, rfl⟩, fun s hs => ?_⟩
        exact absurd hs (by simp)
      · next h1 =>
        split
        · refine ⟨fun _ _ => ⟨rfl, rfl⟩, fun _ _ => ⟨rfl, rfl⟩, fun s hs => ?_⟩
          exact absurd hs (by simp)
        · next h2 =>
          refine ⟨fun hta hval => ?_, fun htn hkn => ?_, fun s hs => ?_⟩
          · exact absurd (by simp [hta, hval]) h1
          · exact absurd (by simp [htn, hkn]) h2
          · have hss : s = { existing with
                address := if truthy d.address then normalizeAddress d.address
                           else existing.address
                network := if truthy d.network then jsTrim (jsToStringD d.network)
                           else existing.network } := by
              injection hs.symm
            subst hss
            exact ⟨rfl, mapGet_mapSet_self st.sessions _ _, rfl, rfl, rfl, rfl⟩

/-- Witness for C6: switching only the network of the stored fixture keeps
id, status, uri and connection time. -/
theorem C6_switch_amended_witness :
    mapGet (switchSession switchNet stWithSession).2.sessions
        (jsTrim (jsToStringD switchNet.session)) =
      some ⟨"sid1", addrA, "eip155:11155111", "wc:example", SessionStatus.CONNECTED,
        "2026-01-01T00:00:00.000Z"⟩ ∧
    ((⟨"sid1", addrA, "eip155:11155111", "wc:example", SessionStatus.CONNECTED,
      "2026-01-01T00:00:00.000Z"⟩ : WalletConnectSession)).status = sessA.status := by
  obtain ⟨hs, hst, hid, hstat, huri, hconn⟩ :=
    (C6_switch_amended switchNet stWithSession sessA (by decide)).2.2
      (⟨"sid1", addrA, "eip155:11155111", "wc:example", SessionStatus.CONNECTED,
        "2026-01-01T00:00:00.000Z"⟩) (by rfl)
  exact ⟨hst, hstat⟩

/-- Counterexample to C7 as stated: a disconnect request naming the stored
id surrounded by whitespace — a string that is not a key of the session
store — succeeds instead of raising a not-found error, because the source
trims the id first. -/
theorem C7_counterexample :
    discPadded.session = some (JSVal.vStr (" sid1 ")) ∧
    mapGet stWithSession.sessions (" sid1 ") = none ∧
    isOkE (disconnectSession discPadded stWithSession).1 = true := by
  decide

/-- C7 (amended): `DisconnectSession` raises an error when the trimmed
session id is empty or not a store key, leaving the state unchanged; on a
stored nonempty trimmed id it stores and returns the session with status
DISCONNECTED, and running it a second time returns the same session and
the same state (idempotent terminal transition). -/
theorem C7_disconnect_amended (d : DisconnectPayload) (st : DaemonState) :
    (((jsTrim (jsToStringD d.session)).isEmpty = true ∨
      mapGet st.sessions (jsTrim (jsToStringD d.session)) = none) →
      isOkE (disconnectSession d st).1 = false ∧ (disconnectSession d st).2 = st) ∧
    (∀ existing, (jsTrim (jsToStringD d.session)).isEmpty = false →
      mapGet st.sessions (jsTrim (jsToStringD d.session)) = some existing →
      (disconnectSession d st).1 =
        Except.ok { existing with status := SessionStatus.DISCONNECTED } ∧
      mapGet (disconnectSession d st).2.sessions (jsTrim (jsToStringD d.session)) =
        some { existing with status := SessionStatus.DISCONNECTED } ∧
      disconnectSession d (disconnectSession d st).2 = disconnectSession d st) := by
  unfold disconnectSession
  split
  · next hempty =>
    refine ⟨fun _ => ⟨rfl, rfl⟩, fun existing hne hm => ?_⟩
    rw [hne] at hempty
    exact absurd hempty (by simp)
  · next hempty =>
    split
    · next hnone =>
      refine ⟨fun _ => ⟨rfl, rfl⟩, fun existing hne hm => ?_⟩
      rw [hnone] at hm
      exact absurd hm (by simp)
    · next existing0 hrec =>
      refine ⟨fun hdisj => ?_, fun existing hne hm => ?_⟩
      · rcases hdisj with hemp | hnone
        · exact absurd hemp hempty
        · rw [hrec] at hnone
          exact absurd hnone (by simp)
      · rw [hrec] at hm
        have hee : existing0 = existing := by injection hm
        subst hee
        refine ⟨rfl, mapGet_mapSet_self st.sessions _ _, ?_⟩
        have hm1 : mapGet (mapSet st.sessions (jsTrim (jsToStringD d.session))
            { existing0 with status := SessionStatus.DISCONNECTED })
            (jsTrim (jsToStringD d.session)) =
            some { existing0 with status := SessionStatus.DISCONNECTED } :=
          mapGet_mapSet_self st.sessions _ _
        simp [hm1, mapSet_idem]

/-- Witness for C7: disconnecting the stored fixture yields the terminal
DISCONNECTED session and a second disconnect reproduces the same state. -/
theorem C7_disconnect_amended_witness :
    (disconnectSession discGood stWithSession).1 =
      Except.ok { sessA with status := SessionStatus.DISCONNECTED } ∧
    disconnectSession discGood (disconnectSession discGood stWithSession).2 =
      disconnectSession discGood stWithSession := by
  obtain ⟨h1, h2, h3⟩ := (C7_disconnect_amended discGood stWithSession).2 sessA
    (by decide) (by decide)
  exact ⟨h1, h3⟩

/-- C10: every session-store operation preserves the store invariant — keys
equal ids, addresses match `ADDRESS_REGEX`, networks are loaded, uris start
with `wc:`. -/
theorem C10_session_invariant (cd : ConnectPayload) (uuid nowIso : String)
    (sw : SwitchPayload) (dc : DisconnectPayload) (st : DaemonState)
    (hinv : sessionStoreInv st) :
    sessionStoreInv (connectSession cd uuid nowIso st).2 ∧
    sessionStoreInv (switchSession sw st).2 ∧
    sessionStoreInv (disconnectSession dc st).2 := by
  refine ⟨?_, ?_, ?_⟩
  · unfold connectSession
    split_ifs with h1 h2
    · exact hinv
    · exact hinv
    · intro q hq
      rcases mapSet_mem hq with hq0 | hq0
      · simp only [Bool.not_eq_true, Bool.not_eq_false', Bool.and_eq_true] at h1 h2
        rw [hq0]
        exact ⟨rfl, h1.1.1, h2, h1.2⟩
      · exact hinv q hq0
  · unfold switchSession
    split
    · exact hinv
    · split
      · exact hinv
      · next existing0 hrec =>
        split
        · exact hinv
        · next h1 =>
          split
          · exact hinv
          · next h2 =>
            intro q hq
            rcases mapSet_mem hq with hq0 | hq0
            · have hmem : (jsTrim (jsToStringD sw.session), existing0) ∈ st.sessions :=
                mapGet_mem hrec
              obtain ⟨hkey, haddr, hnet, huri⟩ := hinv _ hmem
              rw [hq0]
              refine ⟨hkey, ?_, ?_, huri⟩
              · by_cases hta : truthy sw.address = true
                · have hval : isValidAddress (normalizeAddress sw.address) = true := by
                    rcases Bool.eq_false_or_eq_true
                        (isValidAddress (normalizeAddress sw.address)) with hv | hv
                    · exact hv
                    · exfalso
                      apply h1
                      rw [hta, hv]
                      rfl
                  simp only [hta, if_true]
                  exact hval
                · have hta' : truthy sw.address = false := Bool.eq_false_iff.mpr hta
                  simp only [hta']
                  simpa using haddr
              · by_cases htn : truthy sw.network = true
                · have hkn : isKnownNetwork st.networks
                      (jsTrim (jsToStringD sw.network)) = true := by
                    rcases Bool.eq_false_or_eq_true (isKnownNetwork st.networks
                        (jsTrim (jsToStringD sw.network))) with hv | hv
                    · exact hv
                    · exfalso
                      apply h2
                      rw [htn, hv]
                      rfl
                  simp only [htn, if_true]
                  exact hkn
                · have htn' : truthy sw.network = false := Bool.eq_false_iff.mpr htn
                  simp only [htn']
                  simpa using hnet
            · exact hinv q hq0
  · unfold disconnectSession
    split
    · exact hinv
    · split
      · exact hinv
      · next existing0 hrec =>
        intro q hq
        rcases mapSet_mem hq with hq0 | hq0
        · have hmem : (jsTrim (jsToStringD dc.session), existing0) ∈ st.sessions :=
            mapGet_mem hrec
          obtain ⟨hkey, haddr, hnet, huri⟩ := hinv _ hmem
          rw [hq0]
          exact ⟨hkey, haddr, hnet, huri⟩
        · exact hinv q hq0

/-- Witness for C10: after connecting the good fixture on top of the stored
state, the new entry satisfies all four invariant components. -/
theorem C10_session_invariant_witness :
    ("u1", (⟨"u1", addrA, "eip155:1", "wc:example", SessionStatus.CONNECTED,
      "t0"⟩ : WalletConnectSession)).1 =
      (⟨"u1", addrA, "eip155:1", "wc:example", SessionStatus.CONNECTED,
        "t0"⟩ : WalletConnectSession).id ∧
    isValidAddress addrA = true ∧
    isKnownNetwork (connectSession connectGood ("u1") ("t0") stWithSession).2.networks
      ("eip155:1") = true ∧
    startsWithWc ("wc:example") = true := by
  have h := (C10_session_invariant connectGood ("u1") ("t0") switchNet discGood
    stWithSession (by intro q hq; fin_cases hq <;> exact ⟨rfl, by decide, by decide, by decide⟩)).1
  exact h ("u1", ⟨"u1", addrA, "eip155:1", "wc:example", SessionStatus.CONNECTED, "t0"⟩)
    (by decide)
